import Mathlib

/-!
# Verification of the journal/x-ray delivery and journalising robot

Shallow embedding of the control-flow and data-handling kernels of the
repository: the EDI-portal pipeline executor, the connection-retry wrapper,
the UI polling primitives, the CPR birthdate decoder, the check-then-create
idempotency sites, the contractor-id substitution, and the outer
`process_item` error-handling shell. Each definition mirrors one Python
function of the source; theorems settle the specification claims.
-/

namespace JournalRontgen

/-! ## Python exception model

Exceptions raised by the embedded code. `Raised` distinguishes an exception
propagated as-is from one re-raised as `ProcessError(msg) from cause`. -/

inductive PyErr where
  | valueError (msg : String)
  | typeError (msg : String)
  | businessError (msg : String)
  | runtimeError (msg : String)
  | operationalError (code : String) (msg : String)
  | timeoutError (msg : String)
  | genericError (msg : String)
deriving DecidableEq, Repr

inductive Raised where
  | plain (e : PyErr)
  | processErrorFrom (msg : String) (cause : PyErr)
deriving DecidableEq, Repr

/-! ## Pipeline executor of `edi_portal_handler`
(src/processes/subprocesses/process/edi/edi_portal_handler.py, lines 139-177)

A pipeline step, in one given execution, either returns a value whose
truthiness is `truthy`, or raises an exception with message `msg`.
Steps are identified by name. -/

inductive StepRes where
  | ret (truthy : Bool)
  | raiseExc (msg : String)
deriving DecidableEq, Repr

/-- The main-step loop of `edi_portal_handler`: `for step in pipeline[:-2]`.
A step is invoked only when `skip_steps` is false; a truthy return sets
`skip_steps`; a raising step aborts with `RuntimeError(f"Step {name} failed: {e}")`.
Returns the list of invoked step names and the propagated error, if any. -/
def runMainSteps : List (String × StepRes) → Bool → List String × Option String
  | [], _ => ([], none)
  | (n, r) :: rest, skip =>
    if skip then runMainSteps rest skip
    else
      match r with
      | .raiseExc m => ([n], some ("Step " ++ n ++ " failed: " ++ m))
      | .ret t =>
        let res := runMainSteps rest t
        (n :: res.1, res.2)

/-- The tail loop of `edi_portal_handler`: `for step in pipeline[-2:]`, run
unconditionally after the main loop finishes without error; a raising tail
step aborts the loop with the same wrapped `RuntimeError`. -/
def runTailSteps : List (String × StepRes) → List String × Option String
  | [] => ([], none)
  | (n, r) :: rest =>
    match r with
    | .raiseExc m => ([n], some ("Step " ++ n ++ " failed: " ++ m))
    | .ret _ =>
      let res := runTailSteps rest
      (n :: res.1, res.2)

/-- The whole executor: run the main steps; on error, propagate without
touching the tail; otherwise run the two tail steps. Returns
(main steps invoked, tail steps invoked, propagated error). -/
def edi_portal_handler_run (main tail : List (String × StepRes)) :
    List String × List String × Option String :=
  let m := runMainSteps main false
  match m.2 with
  | some err => (m.1, [], some err)
  | none =>
    let t := runTailSteps tail
    (m.1, t.1, t.2)

/-- The concrete pipeline built in `edi_portal_handler` (lines 90-136), in
declaration order; the commented-out priority step is absent from the source
list. The last two entries are the tail. -/
def ediPipelineStepNames : List String :=
  [ "edi_portal_is_patient_data_sent"
  , "edi_portal_go_to_send_journal"
  , "edi_portal_click_next_button"
  , "edi_portal_lookup_contractor_id"
  , "edi_portal_choose_receiver"
  , "edi_portal_click_next_button"
  , "edi_portal_add_content"
  , "edi_portal_click_next_button"
  , "edi_portal_upload_files"
  , "edi_portal_click_next_button"
  , "edi_portal_click_next_button"
  , "edi_portal_send_message"
  , "edi_portal_get_journal_sent_receip"
  , "rename_file" ]

/-- `pipeline[:-2]` of the concrete pipeline. -/
def ediMainStepNames : List String :=
  ediPipelineStepNames.take (ediPipelineStepNames.length - 2)

/-- `pipeline[-2:]` of the concrete pipeline. -/
def ediTailStepNames : List String :=
  ediPipelineStepNames.drop (ediPipelineStepNames.length - 2)

/-! ## `retry_on_connection_error`
(src/processes/subprocesses/process/romexis/db_handler.py, lines 15-73)

The wrapped operation is modelled as a function of the 1-based attempt
number; delays are natural numbers (seconds). The wrapper result records
(number of invocations, list of sleeps performed, outcome). -/

/-- SQLSTATE codes treated as connection-related in the decorator. -/
def isConnectionErrorCode (code : String) : Bool :=
  code = "08001" || code = "08S01" || code = "HYT00"

/-- The `for attempt in range(1, max_attempts + 1)` loop, with `remaining`
attempts left (`remaining = maxAttempts - attempt + 1`). `remaining = 1`
is the last attempt: a transient failure there is logged, the loop ends and
`ProcessError` is raised from the last exception. -/
def retryAux (op : Nat → Except PyErr Nat) (maxAttempts backoff : Nat) :
    Nat → Nat → Nat → Nat × List Nat × Except Raised (Option Nat)
  | 0, _, _ => (0, [], .ok none)
  | 1, attempt, _ =>
    match op attempt with
    | .ok v => (1, [], .ok (some v))
    | .error e =>
      match e with
      | .operationalError c m =>
        if isConnectionErrorCode c then
          (1, [], .error (.processErrorFrom
            ("Failed to connect to database after " ++ toString maxAttempts ++ " attempts")
            (.operationalError c m)))
        else (1, [], .error (.plain e))
      | _ => (1, [], .error (.plain e))
  | n + 2, attempt, curDelay =>
    match op attempt with
    | .ok v => (1, [], .ok (some v))
    | .error e =>
      match e with
      | .operationalError c _ =>
        if isConnectionErrorCode c then
          let r := retryAux op maxAttempts backoff (n + 1) (attempt + 1) (curDelay * backoff)
          (r.1 + 1, curDelay :: r.2.1, r.2.2)
        else (1, [], .error (.plain e))
      | _ => (1, [], .error (.plain e))

/-- The decorator `retry_on_connection_error(max_attempts, delay, backoff)`
applied to `op`. -/
def retry_on_connection_error (maxAttempts delay backoff : Nat)
    (op : Nat → Except PyErr Nat) : Nat × List Nat × Except Raised (Option Nat) :=
  retryAux op maxAttempts backoff maxAttempts 1 delay

/-! ## `wait_for_control` and `wait_for_control_to_disappear`
(src/processes/subprocesses/process/edi/edi_portal_functions.py, lines 23-89)

One poll of the UI either finds the control present, finds it absent, or
raises while querying (the exception is logged and the loop continues).
Real time is abstracted to poll slots: with `timeout` and a poll interval
(both in the same time unit, interval positive), the `while time.time() <
end_time` loop performs `numPolls timeout interval` polls before the
deadline passes. `wait_for_control_to_disappear` hard-codes its sleep to
one unit (`time.sleep(0.5)` with a 0.5-second unit). -/

inductive PollRes where
  | present
  | absent
  | errorRaised
deriving DecidableEq, Repr

/-- Number of loop iterations that start before the deadline. -/
def numPolls (timeout interval : Nat) : Nat := (timeout + interval - 1) / interval

/-- Presence loop body: return the index of the first poll that finds the
control; an exception during a poll behaves like not-found. -/
def waitLoopPresence (poll : Nat → PollRes) : Nat → Nat → Option Nat
  | 0, _ => none
  | fuel + 1, i =>
    match poll i with
    | .present => some i
    | _ => waitLoopPresence poll fuel (i + 1)

/-- `wait_for_control`: returns the control (here: the succeeding poll index)
or raises `TimeoutError` once the deadline passes. -/
def wait_for_control (poll : Nat → PollRes) (timeout retry_interval : Nat) :
    Except PyErr Nat :=
  match waitLoopPresence poll (numPolls timeout retry_interval) 0 with
  | some i => .ok i
  | none => .error (.timeoutError "Control was not found within the timeout.")

/-- Absence loop body: return the index of the first poll that finds the
control gone; a poll that still sees it, or raises, keeps waiting. -/
def waitLoopAbsence (poll : Nat → PollRes) : Nat → Nat → Option Nat
  | 0, _ => none
  | fuel + 1, i =>
    match poll i with
    | .absent => some i
    | _ => waitLoopAbsence poll fuel (i + 1)

/-- `wait_for_control_to_disappear`: returns `true` as soon as a poll finds
the control absent, raises `TimeoutError` at the deadline. -/
def wait_for_control_to_disappear (poll : Nat → PollRes) (timeout : Nat) :
    Except PyErr Bool :=
  match waitLoopAbsence poll (numPolls timeout 1) 0 with
  | some _ => .ok true
  | none => .error (.timeoutError "Control did not disappear within the timeout period.")

/-! ## `cpr_to_birthdate`
(src/processes/subprocesses/helper_functions.py, lines 25-60)

Dates are triples (year, month, day); the Copenhagen timezone attachment is
dropped. `datetime(year, month, day)` validating the day/month is embedded
as an explicit range check raising `ValueError`, as the constructor does. -/

/-- Decimal value of a digit list, as `int()` on the sliced string. -/
def natOfDigits (cs : List Char) : Nat :=
  cs.foldl (fun a c => a * 10 + (c.toNat - 48)) 0

def isLeapYear (y : Nat) : Bool :=
  (y % 4 = 0 && !(y % 100 = 0)) || y % 400 = 0

def daysInMonth (y m : Nat) : Nat :=
  if m = 2 then (if isLeapYear y then 29 else 28)
  else if m = 4 || m = 6 || m = 9 || m = 11 then 30
  else 31

def cpr_to_birthdate (ssn : String) : Except PyErr (Nat × Nat × Nat) :=
  let cs := ssn.toList
  if cs.length ≠ 10 || !(cs.all Char.isDigit) then
    .error (.valueError "CPR number must be exactly 10 digits (DDMMYYSSSS)")
  else
    let day := natOfDigits (cs.take 2)
    let month := natOfDigits ((cs.drop 2).take 2)
    let yy := natOfDigits ((cs.drop 4).take 2)
    let ssss := natOfDigits ((cs.drop 6).take 4)
    let yearRes : Except PyErr Nat :=
      if ssss ≤ 1999 then
        .ok (if 37 ≤ yy then 1900 + yy else 2000 + yy)
      else if 2000 ≤ ssss ∧ ssss ≤ 4999 then
        .ok (1900 + yy)
      else if 5000 ≤ ssss ∧ ssss ≤ 8999 then
        .ok (if 37 ≤ yy then 1900 + yy else 2000 + yy)
      else if 9000 ≤ ssss ∧ ssss ≤ 9999 then
        .ok (if 37 ≤ yy then 1800 + yy else 2000 + yy)
      else
        .error (.valueError "Invalid CPR personal-number range")
    match yearRes with
    | .error e => .error e
    | .ok year =>
      if 1 ≤ month ∧ month ≤ 12 ∧ 1 ≤ day ∧ day ≤ daysInMonth year month then
        .ok (year, month, day)
      else
        .error (.valueError "day or month is out of range")

/-! ## The three check-then-create sites

`_finalize_edi_portal_document` and `_created_administrative_note`
(src/processes/process_item.py, lines 141-198) and
`check_and_create_medical_record_document`
(src/processes/subprocesses/process/document/create_medical_record.py).

The external Solteq Tand database and application live behind
`get_list_of_documents` / `get_list_of_journal_notes` (an existence query
for the given filters against state `s`) and a creating action `σ → σ`.
`now` is a timestamp in days; `now - 30` embeds
`now - datetime.timedelta(days=30)`. Each site returns the state after the
call and whether the creating action was invoked. -/

structure DocFilters where
  cpr : String
  textPattern : String
  documentType : Option String
  rn : Option String
  statusId : Option String
  createdAfter : Int
deriving DecidableEq, Repr

/-- Filters of the receipt-document query in `_finalize_edi_portal_document`. -/
def finalize_edi_filters (cpr patientName : String) (now : Int) : DocFilters :=
  { cpr := cpr
  , textPattern := "%EDI Portal - " ++ patientName ++ "%"
  , documentType := none
  , rn := some "1"
  , statusId := some "1"
  , createdAfter := now - 30 }

def finalize_edi_portal_document {σ : Type}
    (get_list_of_documents : σ → DocFilters → List String)
    (create_document : σ → σ)
    (cpr patientName : String) (now : Int) (s : σ) : σ × Bool :=
  let list_of_documents := get_list_of_documents s (finalize_edi_filters cpr patientName now)
  if list_of_documents.isEmpty then (create_document s, true) else (s, false)

/-- `config.ADM_NOTE_LOOKUP`, the text matched when looking for an existing
administrative note. -/
def ADM_NOTE_LOOKUP : String :=
  "Udskrivning 22 år gennemført af robot. Sendt information, journal og billedmateriale til privat tandklinik via EDI-portal. Se dokumentskab"

structure NoteFilters where
  cpr : String
  beskrivelsePattern : String
  dokumenteretAfter : Int
deriving DecidableEq, Repr

/-- Filters of the journal-note query in `_created_administrative_note`. -/
def administrative_note_filters (cpr : String) (now : Int) : NoteFilters :=
  { cpr := cpr
  , beskrivelsePattern := "%" ++ ADM_NOTE_LOOKUP ++ "%"
  , dokumenteretAfter := now - 30 }

def created_administrative_note {σ : Type}
    (get_list_of_journal_notes : σ → NoteFilters → List String)
    (create_journal_note : σ → σ)
    (cpr : String) (now : Int) (s : σ) : σ × Bool :=
  let result := get_list_of_journal_notes s (administrative_note_filters cpr now)
  if result.isEmpty then (create_journal_note s, true) else (s, false)

/-- Filters of the medical-record query in
`check_and_create_medical_record_document`. -/
def medical_record_filters (cpr : String) (now : Int) : DocFilters :=
  { cpr := cpr
  , textPattern := "%Printet journal%(delvis kopi)%"
  , documentType := some "Journaludskrift"
  , rn := some "1"
  , statusId := some "1"
  , createdAfter := now - 30 }

def check_and_create_medical_record_document {σ : Type}
    (get_list_of_documents : σ → DocFilters → List String)
    (create_digital_printet_journal : σ → σ)
    (patient_cpr : String) (now : Int) (s : σ) : σ × Bool :=
  let list_of_documents_medical_record :=
    get_list_of_documents s (medical_record_filters patient_cpr now)
  if list_of_documents_medical_record.isEmpty then
    (create_digital_printet_journal s, true)
  else (s, false)

/-! ## Contractor-id substitution
(src/processes/subprocesses/process/edi/edi_portal_functions.py, lines
92-180 and 235-326, and the subject computation of `edi_portal_handler`,
lines 77-87)

Python falsiness of the contractor id / phone number (None or empty string)
is modelled by the empty string. -/

structure ClinicData where
  contractorId : String
  phoneNumber : String
deriving DecidableEq, Repr

/-- The (contractor_id, clinic_phone_number) pair computed at the top of
`edi_portal_lookup_contractor_id`, with the Hasle Torv / Brobjergparken
special case. -/
def edi_portal_lookup_values (c : ClinicData) : String × String :=
  if c.contractorId = "477052" || c.contractorId = "470678" then
    ("485055", "86135240")
  else
    (c.contractorId, c.phoneNumber)

/-- The value typed into the recipient search box by
`edi_portal_lookup_contractor_id`:
`contractor_id if contractor_id else clinic_phone_number`. -/
def edi_portal_lookup_search_value (c : ClinicData) : String :=
  let v := edi_portal_lookup_values c
  if v.1 ≠ "" then v.1 else v.2

/-- The same pair as computed, separately, at the top of
`edi_portal_check_contractor_id`. -/
def edi_portal_check_values (c : ClinicData) : String × String :=
  if c.contractorId = "477052" || c.contractorId = "470678" then
    ("485055", "86135240")
  else
    (c.contractorId, c.phoneNumber)

/-- The value typed into the search box by `edi_portal_check_contractor_id`. -/
def edi_portal_check_search_value (c : ClinicData) : String :=
  let v := edi_portal_check_values c
  if v.1 ≠ "" then v.1 else v.2

/-- The row scan of `edi_portal_check_contractor_id` over the phone-number
column of the recipients table: (row count, any row matching the clinic
phone number). -/
def edi_portal_check_contractor_result (c : ClinicData) (phoneColumn : List String) :
    Nat × Bool :=
  (phoneColumn.length, phoneColumn.any (fun p => p = (edi_portal_check_values c).2))

/-- The subject computed in `edi_portal_handler` from the base subject of
the content constant, the patient name and the first external clinic. -/
def edi_portal_handler_subject (baseSubject patientName : String) (c : ClinicData) :
    String :=
  if c.contractorId = "477052" then
    baseSubject ++ " på Tandklinikken Hasle Torv " ++ patientName
  else if c.contractorId = "470678" then
    baseSubject ++ " på Tandklinikken Brobjergparken " ++ patientName
  else
    baseSubject ++ " " ++ patientName

/-! ## The `process_item` error-handling shell
(src/processes/process_item.py, lines 201-283)

The body of the `try` block is split into its phases: `_validate_input_data`
plus `_setup_context` (`preRes`), the first dashboard update with status
"running" (`updRunning`), the main body from `get_app` through
`_created_administrative_note` (`bodyRes`), and the final dashboard update
with status "success" (`updSuccess`). Each phase either completes or raises.
The handlers attempt a "failed" update — with `rerun=True` for a
`BusinessError`, `rerun=False` otherwise — and that update call itself may
raise, in which case its exception replaces the one being handled (Python
semantics for an exception raised inside an `except` block). `finally:`
runs `close()` exactly once on every path. -/

def isBusinessError : PyErr → Bool
  | .businessError _ => true
  | _ => false

structure PIResult where
  /-- Dashboard update attempts, in order: (status, rerun flag). -/
  updates : List (String × Bool)
  /-- Number of `close()` invocations. -/
  closed : Nat
  result : Except Raised Unit
deriving Repr

/-- The `try` block: validate/setup, report "running", run the main body,
report "success". Returns the update attempts made and the outcome. -/
def process_item_try_phase (preRes updRunning bodyRes updSuccess : Except PyErr Unit) :
    List (String × Bool) × Except PyErr Unit :=
  match preRes with
  | .error e => ([], .error e)
  | .ok _ =>
    match updRunning with
    | .error e => ([("running", false)], .error e)
    | .ok _ =>
      match bodyRes with
      | .error e => ([("running", false)], .error e)
      | .ok _ =>
        match updSuccess with
        | .error e => ([("running", false), ("success", false)], .error e)
        | .ok _ => ([("running", false), ("success", false)], .ok ())

/-- The `except BusinessError` / `except Exception` handlers. -/
def process_item_handle (tryRes : List (String × Bool) × Except PyErr Unit)
    (updFailedBus updFailedTech : Except PyErr Unit) :
    List (String × Bool) × Except Raised Unit :=
  match tryRes.2 with
  | .ok _ => (tryRes.1, .ok ())
  | .error e =>
    if isBusinessError e then
      ( tryRes.1 ++ [("failed", true)]
      , match updFailedBus with
        | .ok _ => .error (.plain e)
        | .error u => .error (.plain u) )
    else
      ( tryRes.1 ++ [("failed", false)]
      , match updFailedTech with
        | .ok _ => .error (.processErrorFrom "A process error occurred." e)
        | .error u => .error (.plain u) )

/-- `process_item` as try/except/except/finally over the phase outcomes. -/
def process_item_run (preRes updRunning bodyRes updSuccess updFailedBus updFailedTech :
    Except PyErr Unit) : PIResult :=
  let handled :=
    process_item_handle (process_item_try_phase preRes updRunning bodyRes updSuccess)
      updFailedBus updFailedTech
  { updates := handled.1, closed := 1, result := handled.2 }

/-! ## The broken call sites inside the `process_item` body
(src/processes/process_item.py, lines 91-113;
src/processes/subprocesses/process/romexis/romexis_images_handler.py, line 26;
src/processes/subprocesses/process/document/create_medical_record.py, line 12)

Python raises `TypeError` at call time when a required positional parameter
is bound by neither a positional nor a keyword argument. -/

/-- Required parameters left unbound by a call with `numPositional`
positional arguments and the given keyword-argument names. -/
def missingRequiredArgs (required : List String) (numPositional : Nat)
    (keywords : List String) : List String :=
  (required.drop numPositional).filter (fun p => !(keywords.contains p))

/-- Parameter list of `get_images_from_romexis`. -/
def get_images_from_romexis_params : List String := ["queue_element_data"]

/-- Parameter list of `check_and_create_medical_record_document`. -/
def check_and_create_medical_record_document_params : List String :=
  ["queue_element_data", "solteq_tand_db_object"]

/-- The call `get_images_from_romexis()` in `_process_images`: no arguments. -/
def process_images_call_missing : List String :=
  missingRequiredArgs get_images_from_romexis_params 0 []

/-- The call `check_and_create_medical_record_document(solteq_tand_db_object=...)`
in `_process_medical_record`: one keyword argument. -/
def process_medical_record_call_missing : List String :=
  missingRequiredArgs check_and_create_medical_record_document_params 0
    ["solteq_tand_db_object"]

/-- A Python call: `TypeError` if required parameters are unbound, otherwise
the callee body runs. -/
def pythonCall (missing : List String) (body : Except PyErr Unit) : Except PyErr Unit :=
  if missing.isEmpty then body
  else .error (.typeError ("missing required positional arguments: "
    ++ String.intercalate ", " missing))

/-- Outcomes of the stages of the `process_item` main body whose behaviour is
external to the claims: each stage either completes or raises. `images_body`
and `medical_record_body` are what the two miscalled functions would do if
their calls bound all arguments. -/
structure BodyEnv where
  get_app : Except PyErr Unit
  prepare_environment : Except PyErr Unit
  open_and_init_patient : Except PyErr Unit
  images_body : Except PyErr Unit
  medical_record_body : Except PyErr Unit
  process_edi_portal : Except PyErr Unit
  finalize_document : Except PyErr Unit
  administrative_note : Except PyErr Unit

/-- Run named stages in order; stop at the first raising stage. Returns the
invoked stage names and the outcome. -/
def runStages : List (String × Except PyErr Unit) → List String × Except PyErr Unit
  | [] => ([], .ok ())
  | (n, r) :: rest =>
    match r with
    | .error e => ([n], .error e)
    | .ok _ =>
      let res := runStages rest
      (n :: res.1, res.2)

/-- The main body of `process_item` between the "running" and "success"
dashboard updates, in source order. -/
def process_item_body_stages (env : BodyEnv) : List (String × Except PyErr Unit) :=
  [ ("get_app", env.get_app)
  , ("prepare_environment", env.prepare_environment)
  , ("open_and_init_patient", env.open_and_init_patient)
  , ("process_images", pythonCall process_images_call_missing env.images_body)
  , ("process_medical_record",
      pythonCall process_medical_record_call_missing env.medical_record_body)
  , ("process_edi_portal", env.process_edi_portal)
  , ("finalize_edi_portal_document", env.finalize_document)
  , ("created_administrative_note", env.administrative_note) ]

/-- `process_item` with the concrete main body: returns the invoked body
stages and the overall result. -/
def process_item_full (preRes updRunning : Except PyErr Unit) (env : BodyEnv)
    (updSuccess updFailedBus updFailedTech : Except PyErr Unit) :
    List String × PIResult :=
  let body := runStages (process_item_body_stages env)
  (body.1, process_item_run preRes updRunning body.2 updSuccess updFailedBus updFailedTech)

/-! ## Theorems -/

/-- Once `skip_steps` is set, no further main step is invoked and no error
can arise from them. -/
theorem runMainSteps_skip_true (l : List (String × StepRes)) :
    runMainSteps l true = ([], none) := by
  induction l with
  | nil => rfl
  | cons s rest ih => simp [runMainSteps, ih]

/-- Main steps returning a falsy value are invoked and passed over. -/
theorem runMainSteps_all_false (pre rest : List (String × StepRes))
    (h : ∀ s ∈ pre, s.2 = StepRes.ret false) :
    runMainSteps (pre ++ rest) false =
      (pre.map Prod.fst ++ (runMainSteps rest false).1, (runMainSteps rest false).2) := by
  induction pre with
  | nil => simp
  | cons s pre ih =>
    obtain ⟨n, r⟩ := s
    have hr : r = StepRes.ret false := h (n, r) (by simp)
    subst hr
    have ih2 := ih (fun s hs => h s (by simp [hs]))
    simp [runMainSteps, ih2]

/-- C1 (amended): the concrete pipeline of `edi_portal_handler` has 12 main
steps and 2 tail steps. If a main step returns a truthy value after only
falsy-returning predecessors, every subsequent main step is not invoked;
the first tail step is then invoked exactly once, and the second tail step
is invoked exactly once unless the first tail step raises (in which case the
wrapped error propagates). If a main step raises after falsy-returning
predecessors, no tail step is invoked and the error propagates wrapped with
the failing step's identity. -/
theorem c1_pipeline_skip_and_fail :
    (ediMainStepNames.length = 12 ∧ ediTailStepNames.length = 2) ∧
    (∀ (pre post : List (String × StepRes)) (n : String) (t1 t2 : String × StepRes),
      (∀ s ∈ pre, s.2 = StepRes.ret false) →
      (edi_portal_handler_run (pre ++ (n, StepRes.ret true) :: post) [t1, t2]).1
          = pre.map Prod.fst ++ [n] ∧
      (∀ b, t1.2 = StepRes.ret b →
        (edi_portal_handler_run (pre ++ (n, StepRes.ret true) :: post) [t1, t2]).2.1
          = [t1.1, t2.1]) ∧
      (∀ m, t1.2 = StepRes.raiseExc m →
        (edi_portal_handler_run (pre ++ (n, StepRes.ret true) :: post) [t1, t2]).2.1
            = [t1.1] ∧
        (edi_portal_handler_run (pre ++ (n, StepRes.ret true) :: post) [t1, t2]).2.2
            = some ("Step " ++ t1.1 ++ " failed: " ++ m))) ∧
    (∀ (pre post : List (String × StepRes)) (n m : String) (t1 t2 : String × StepRes),
      (∀ s ∈ pre, s.2 = StepRes.ret false) →
      edi_portal_handler_run (pre ++ (n, StepRes.raiseExc m) :: post) [t1, t2]
        = (pre.map Prod.fst ++ [n], [], some ("Step " ++ n ++ " failed: " ++ m))) := by
  refine ⟨⟨rfl, rfl⟩, ?_, ?_⟩
  · intro pre post n t1 t2 h
    have hmain := runMainSteps_all_false pre ((n, StepRes.ret true) :: post) h
    have hpost : runMainSteps ((n, StepRes.ret true) :: post) false = ([n], none) := by
      simp [runMainSteps, runMainSteps_skip_true]
    rw [hpost] at hmain
    obtain ⟨nt1, rt1⟩ := t1
    obtain ⟨nt2, rt2⟩ := t2
    refine ⟨?_, ?_, ?_⟩
    · simp [edi_portal_handler_run, hmain]
    · intro b hb
      simp only at hb
      subst hb
      cases rt2 <;> simp [edi_portal_handler_run, hmain, runTailSteps]
    · intro m hm
      simp only at hm
      subst hm
      constructor <;> simp [edi_portal_handler_run, hmain, runTailSteps]
  · intro pre post n m t1 t2 h
    have hmain := runMainSteps_all_false pre ((n, StepRes.raiseExc m) :: post) h
    have hpost : runMainSteps ((n, StepRes.raiseExc m) :: post) false
        = ([n], some ("Step " ++ n ++ " failed: " ++ m)) := by
      simp [runMainSteps]
    rw [hpost] at hmain
    simp [edi_portal_handler_run, hmain]

/-- C1 counterexample: the concrete pipeline of `edi_portal_handler` has 12
main steps, not 13; and in a run where a main step returns a truthy skip
signal but the first tail step raises, the second tail step is invoked zero
times, not exactly once. -/
theorem c1_counterexample :
    ediMainStepNames.length ≠ 13 ∧
    (edi_portal_handler_run [("gate", StepRes.ret true)]
        [("receipt", StepRes.raiseExc "no pdf"), ("renaming", StepRes.ret false)]).2.1
      = ["receipt"] := by
  constructor
  · decide
  · rfl

/-- C1 witness: a concrete skipping run and a concrete failing run. -/
theorem c1_pipeline_skip_and_fail_witness :
    (edi_portal_handler_run
        [("gate", StepRes.ret false), ("upload", StepRes.ret true),
          ("send", StepRes.ret false)]
        [("receipt", StepRes.ret false), ("renaming", StepRes.ret false)]).1
      = ["gate", "upload"] ∧
    (edi_portal_handler_run
        [("gate", StepRes.ret false), ("upload", StepRes.ret true),
          ("send", StepRes.ret false)]
        [("receipt", StepRes.ret false), ("renaming", StepRes.ret false)]).2.1
      = ["receipt", "renaming"] ∧
    edi_portal_handler_run
        [("gate", StepRes.ret false), ("upload", StepRes.raiseExc "boom"),
          ("send", StepRes.ret false)]
        [("receipt", StepRes.ret false), ("renaming", StepRes.ret false)]
      = (["gate", "upload"], [], some "Step upload failed: boom") := by
  have h := c1_pipeline_skip_and_fail
  have hskip := h.2.1 [("gate", StepRes.ret false)] [("send", StepRes.ret false)]
    "upload" ("receipt", StepRes.ret false) ("renaming", StepRes.ret false) (by decide)
  have hfail := h.2.2 [("gate", StepRes.ret false)] [("send", StepRes.ret false)]
    "upload" "boom" ("receipt", StepRes.ret false) ("renaming", StepRes.ret false)
    (by decide)
  exact ⟨hskip.1, hskip.2.1 false rfl, hfail⟩

/-- C5 counterexample: in the source executor a truthy return from the
second main step already skips the third, contradicting the claim that only
the very first step's return value is consulted. -/
theorem c5_counterexample :
    (runMainSteps
        [("stepA", StepRes.ret false), ("stepB", StepRes.ret true),
          ("stepC", StepRes.ret false)] false).1
      = ["stepA", "stepB"] ∧
    "stepC" ∉ (runMainSteps
        [("stepA", StepRes.ret false), ("stepB", StepRes.ret true),
          ("stepC", StepRes.ret false)] false).1 := by
  constructor
  · rfl
  · decide

/-- C5 (amended): every main step's return value is consulted by the
executor: a truthy return from any main step — not only the first — causes
all subsequent main steps to be skipped. -/
theorem c5_any_truthy_step_skips :
    ∀ (pre rest : List (String × StepRes)) (x : String × StepRes),
      (∀ s ∈ pre, s.2 = StepRes.ret false) → x.2 = StepRes.ret true →
      (runMainSteps (pre ++ x :: rest) false).1 = pre.map Prod.fst ++ [x.1] := by
  intro pre rest x h hx
  obtain ⟨n, r⟩ := x
  simp only at hx
  subst hx
  have hmain := runMainSteps_all_false pre ((n, StepRes.ret true) :: rest) h
  have hpost : runMainSteps ((n, StepRes.ret true) :: rest) false = ([n], none) := by
    simp [runMainSteps, runMainSteps_skip_true]
  rw [hpost] at hmain
  simp [hmain]

/-- C5 witness: a truthy third step skips the fourth. -/
theorem c5_any_truthy_step_skips_witness :
    (runMainSteps
        [("gate", StepRes.ret false), ("nav", StepRes.ret false),
          ("upload", StepRes.ret true), ("send", StepRes.ret false)] false).1
      = ["gate", "nav", "upload"] :=
  c5_any_truthy_step_skips
    [("gate", StepRes.ret false), ("nav", StepRes.ret false)]
    [("send", StepRes.ret false)] ("upload", StepRes.ret true) (by decide) rfl

/-- C3: with `max_attempts=3, delay=d, backoff=b`, an operation that always
raises a transient connection error (`pyodbc.OperationalError` with SQLSTATE
08001, 08S01 or HYT00) is invoked exactly 3 times with sleeps `d` then `d*b`,
after which a `ProcessError` wrapping the last transient error is raised; an
operation whose first invocation raises any non-transient error is invoked
exactly once, with no sleep, and the error propagates unchanged. -/
theorem c3_retry_on_connection_error :
    (∀ (d b : Nat) (code msg : String), isConnectionErrorCode code = true →
      ∀ op : Nat → Except PyErr Nat,
        (∀ k, op k = .error (.operationalError code msg)) →
        retry_on_connection_error 3 d b op
          = (3, [d, d * b], .error (.processErrorFrom
              "Failed to connect to database after 3 attempts"
              (.operationalError code msg)))) ∧
    (∀ (d b : Nat) (op : Nat → Except PyErr Nat) (e : PyErr),
      op 1 = .error e →
      (∀ c m, e = .operationalError c m → isConnectionErrorCode c = false) →
      retry_on_connection_error 3 d b op = (1, [], .error (.plain e))) := by
  constructor
  · intro d b code msg hc op hop
    simp [retry_on_connection_error, retryAux, hop 1, hop 2, hop 3, hc]
    rfl
  · intro d b op e h1 h2
    cases e with
    | operationalError c m =>
      have hnc := h2 c m rfl
      simp [retry_on_connection_error, retryAux, h1, hnc]
    | valueError m => simp [retry_on_connection_error, retryAux, h1]
    | typeError m => simp [retry_on_connection_error, retryAux, h1]
    | businessError m => simp [retry_on_connection_error, retryAux, h1]
    | runtimeError m => simp [retry_on_connection_error, retryAux, h1]
    | timeoutError m => simp [retry_on_connection_error, retryAux, h1]
    | genericError m => simp [retry_on_connection_error, retryAux, h1]

/-- C3 witness: a persistent 08001 error is retried twice and wrapped; a
generic error propagates after a single invocation. -/
theorem c3_retry_on_connection_error_witness :
    retry_on_connection_error 3 2 2
        (fun _ => .error (.operationalError "08001" "connection refused"))
      = (3, [2, 4], .error (.processErrorFrom
          "Failed to connect to database after 3 attempts"
          (.operationalError "08001" "connection refused"))) ∧
    retry_on_connection_error 3 2 2 (fun _ => .error (.genericError "boom"))
      = (1, [], .error (.plain (.genericError "boom"))) := by
  constructor
  · exact c3_retry_on_connection_error.1 2 2 "08001" "connection refused"
      (by decide) _ (fun k => rfl)
  · exact c3_retry_on_connection_error.2 2 2 _ (.genericError "boom") rfl
      (fun c m h => by cases h)

/-- The presence loop returns the first poll that finds the control, no
matter whether earlier polls saw nothing or raised. -/
theorem waitLoopPresence_spec (poll : Nat → PollRes) :
    ∀ (fuel k start : Nat), k < fuel → poll (start + k) = PollRes.present →
      (∀ j < k, poll (start + j) ≠ PollRes.present) →
      waitLoopPresence poll fuel start = some (start + k) := by
  intro fuel
  induction fuel with
  | zero => intro k start hk _ _; exact absurd hk (Nat.not_lt_zero k)
  | succ fuel ih =>
    intro k start hk hp hprev
    cases h0 : poll start with
    | present =>
      have k0 : k = 0 := by
        by_contra hne
        have := hprev 0 (Nat.pos_of_ne_zero hne)
        simp only [Nat.add_zero] at this
        exact this h0
      subst k0
      simp [waitLoopPresence, h0]
    | absent =>
      have kne : k ≠ 0 := by
        intro h
        subst h
        simp only [Nat.add_zero] at hp
        rw [h0] at hp
        cases hp
      obtain ⟨k', rfl⟩ : ∃ k', k = k' + 1 := ⟨k - 1, by omega⟩
      have hrec := ih k' (start + 1) (by omega)
        (by rw [show start + 1 + k' = start + (k' + 1) by omega]; exact hp)
        (fun j hj => by
          rw [show start + 1 + j = start + (j + 1) by omega]
          exact hprev (j + 1) (by omega))
      rw [show start + 1 + k' = start + (k' + 1) by omega] at hrec
      simp [waitLoopPresence, h0, hrec]
    | errorRaised =>
      have kne : k ≠ 0 := by
        intro h
        subst h
        simp only [Nat.add_zero] at hp
        rw [h0] at hp
        cases hp
      obtain ⟨k', rfl⟩ : ∃ k', k = k' + 1 := ⟨k - 1, by omega⟩
      have hrec := ih k' (start + 1) (by omega)
        (by rw [show start + 1 + k' = start + (k' + 1) by omega]; exact hp)
        (fun j hj => by
          rw [show start + 1 + j = start + (j + 1) by omega]
          exact hprev (j + 1) (by omega))
      rw [show start + 1 + k' = start + (k' + 1) by omega] at hrec
      simp [waitLoopPresence, h0, hrec]

/-- If no poll before the deadline finds the control, the presence loop
runs out. -/
theorem waitLoopPresence_none (poll : Nat → PollRes) :
    ∀ (fuel start : Nat), (∀ j < fuel, poll (start + j) ≠ PollRes.present) →
      waitLoopPresence poll fuel start = none := by
  intro fuel
  induction fuel with
  | zero => intro start _; rfl
  | succ fuel ih =>
    intro start h
    have h0 : poll start ≠ PollRes.present := by
      have := h 0 (Nat.succ_pos fuel)
      simpa using this
    have hrec := ih (start + 1) (fun j hj => by
      rw [show start + 1 + j = start + (j + 1) by omega]
      exact h (j + 1) (by omega))
    cases hp : poll start with
    | present => exact absurd hp h0
    | absent => simp [waitLoopPresence, hp, hrec]
    | errorRaised => simp [waitLoopPresence, hp, hrec]

/-- The absence loop returns at the first poll that finds the control gone;
polls that still see it or raise keep waiting. -/
theorem waitLoopAbsence_spec (poll : Nat → PollRes) :
    ∀ (fuel k start : Nat), k < fuel → poll (start + k) = PollRes.absent →
      (∀ j < k, poll (start + j) ≠ PollRes.absent) →
      waitLoopAbsence poll fuel start = some (start + k) := by
  intro fuel
  induction fuel with
  | zero => intro k start hk _ _; exact absurd hk (Nat.not_lt_zero k)
  | succ fuel ih =>
    intro k start hk hp hprev
    cases h0 : poll start with
    | absent =>
      have k0 : k = 0 := by
        by_contra hne
        have := hprev 0 (Nat.pos_of_ne_zero hne)
        simp only [Nat.add_zero] at this
        exact this h0
      subst k0
      simp [waitLoopAbsence, h0]
    | present =>
      have kne : k ≠ 0 := by
        intro h
        subst h
        simp only [Nat.add_zero] at hp
        rw [h0] at hp
        cases hp
      obtain ⟨k', rfl⟩ : ∃ k', k = k' + 1 := ⟨k - 1, by omega⟩
      have hrec := ih k' (start + 1) (by omega)
        (by rw [show start + 1 + k' = start + (k' + 1) by omega]; exact hp)
        (fun j hj => by
          rw [show start + 1 + j = start + (j + 1) by omega]
          exact hprev (j + 1) (by omega))
      rw [show start + 1 + k' = start + (k' + 1) by omega] at hrec
      simp [waitLoopAbsence, h0, hrec]
    | errorRaised =>
      have kne : k ≠ 0 := by
        intro h
        subst h
        simp only [Nat.add_zero] at hp
        rw [h0] at hp
        cases hp
      obtain ⟨k', rfl⟩ : ∃ k', k = k' + 1 := ⟨k - 1, by omega⟩
      have hrec := ih k' (start + 1) (by omega)
        (by rw [show start + 1 + k' = start + (k' + 1) by omega]; exact hp)
        (fun j hj => by
          rw [show start + 1 + j = start + (j + 1) by omega]
          exact hprev (j + 1) (by omega))
      rw [show start + 1 + k' = start + (k' + 1) by omega] at hrec
      simp [waitLoopAbsence, h0, hrec]

/-- If the control is present (or the poll raises) at every poll before the
deadline, the absence loop runs out. -/
theorem waitLoopAbsence_none (poll : Nat → PollRes) :
    ∀ (fuel start : Nat), (∀ j < fuel, poll (start + j) ≠ PollRes.absent) →
      waitLoopAbsence poll fuel start = none := by
  intro fuel
  induction fuel with
  | zero => intro start _; rfl
  | succ fuel ih =>
    intro start h
    have h0 : poll start ≠ PollRes.absent := by
      have := h 0 (Nat.succ_pos fuel)
      simpa using this
    have hrec := ih (start + 1) (fun j hj => by
      rw [show start + 1 + j = start + (j + 1) by omega]
      exact h (j + 1) (by omega))
    cases hp : poll start with
    | absent => exact absurd hp h0
    | present => simp [waitLoopAbsence, hp, hrec]
    | errorRaised => simp [waitLoopAbsence, hp, hrec]

/-- C4: `wait_for_control` returns the control at the first poll that finds
it — earlier polls may see nothing or raise, without aborting the loop — and
raises `TimeoutError` when no poll before the deadline finds it;
symmetrically `wait_for_control_to_disappear` returns `true` at the first
poll that finds the control absent and raises `TimeoutError` when it is
present (or the poll raises) at every poll before the deadline. Both loops
perform at most `numPolls timeout interval` polls, so neither waits forever. -/
theorem c4_wait_for_control_and_disappear :
    (∀ (poll : Nat → PollRes) (timeout interval k : Nat),
      k < numPolls timeout interval → poll k = PollRes.present →
      (∀ j < k, poll j ≠ PollRes.present) →
      wait_for_control poll timeout interval = .ok k) ∧
    (∀ (poll : Nat → PollRes) (timeout interval : Nat),
      (∀ j < numPolls timeout interval, poll j ≠ PollRes.present) →
      wait_for_control poll timeout interval
        = .error (.timeoutError "Control was not found within the timeout.")) ∧
    (∀ (poll : Nat → PollRes) (timeout k : Nat),
      k < numPolls timeout 1 → poll k = PollRes.absent →
      (∀ j < k, poll j ≠ PollRes.absent) →
      wait_for_control_to_disappear poll timeout = .ok true) ∧
    (∀ (poll : Nat → PollRes) (timeout : Nat),
      (∀ j < numPolls timeout 1, poll j ≠ PollRes.absent) →
      wait_for_control_to_disappear poll timeout
        = .error (.timeoutError "Control did not disappear within the timeout period.")) := by
  refine ⟨?_, ?_, ?_, ?_⟩
  · intro poll timeout interval k hk hp hprev
    have := waitLoopPresence_spec poll (numPolls timeout interval) k 0 hk
      (by simpa using hp) (fun j hj => by simpa using hprev j hj)
    simp only [Nat.zero_add] at this
    simp [wait_for_control, this]
  · intro poll timeout interval h
    have := waitLoopPresence_none poll (numPolls timeout interval) 0
      (fun j hj => by simpa using h j hj)
    simp [wait_for_control, this]
  · intro poll timeout k hk hp hprev
    have := waitLoopAbsence_spec poll (numPolls timeout 1) k 0 hk
      (by simpa using hp) (fun j hj => by simpa using hprev j hj)
    simp only [Nat.zero_add] at this
    simp [wait_for_control_to_disappear, this]
  · intro poll timeout h
    have := waitLoopAbsence_none poll (numPolls timeout 1) 0
      (fun j hj => by simpa using h j hj)
    simp [wait_for_control_to_disappear, this]

/-- C4 witness: a poll that raises once, then misses, then finds the control
on the third poll; a control that never appears; a control observed gone on
the second poll; a control that never disappears. -/
theorem c4_wait_for_control_and_disappear_witness :
    wait_for_control
        (fun i => if i = 2 then .present else if i = 0 then .errorRaised else .absent)
        30 5 = .ok 2 ∧
    wait_for_control (fun _ => .errorRaised) 10 5
      = .error (.timeoutError "Control was not found within the timeout.") ∧
    wait_for_control_to_disappear (fun i => if i = 1 then .absent else .present) 30
      = .ok true ∧
    wait_for_control_to_disappear (fun _ => .present) 10
      = .error (.timeoutError "Control did not disappear within the timeout period.") := by
  refine ⟨?_, ?_, ?_, ?_⟩
  · exact c4_wait_for_control_and_disappear.1
      (fun i => if i = 2 then .present else if i = 0 then .errorRaised else .absent)
      30 5 2 (by decide) (by decide) (by decide)
  · exact c4_wait_for_control_and_disappear.2.1 (fun _ => .errorRaised) 10 5
      (by decide)
  · exact c4_wait_for_control_and_disappear.2.2.1
      (fun i => if i = 1 then .absent else .present) 30 1 (by decide) (by decide)
      (by decide)
  · exact c4_wait_for_control_and_disappear.2.2.2 (fun _ => .present) 10 (by decide)

/-- C9: `cpr_to_birthdate` maps "0101370000" to 1937-01-01 and "0101300000"
to 2030-01-01; every input that is not exactly 10 characters or not all
digits raises the format `ValueError`, in particular the 9-digit
"010137000" and "01013700AA". -/
theorem c9_cpr_to_birthdate :
    cpr_to_birthdate "0101370000" = .ok (1937, 1, 1) ∧
    cpr_to_birthdate "0101300000" = .ok (2030, 1, 1) ∧
    (∀ s : String,
      s.toList.length ≠ 10 ∨ s.toList.all Char.isDigit = false →
      cpr_to_birthdate s
        = .error (.valueError "CPR number must be exactly 10 digits (DDMMYYSSSS)")) ∧
    cpr_to_birthdate "010137000"
      = .error (.valueError "CPR number must be exactly 10 digits (DDMMYYSSSS)") ∧
    cpr_to_birthdate "01013700AA"
      = .error (.valueError "CPR number must be exactly 10 digits (DDMMYYSSSS)") := by
  refine ⟨rfl, rfl, ?_, rfl, rfl⟩
  intro s h
  simp only [cpr_to_birthdate]
  split
  · rfl
  · rename_i hcond
    refine absurd ?_ hcond
    simp only [Bool.or_eq_true, decide_eq_true_eq, Bool.not_eq_true']
    exact h

/-- C9 witness: the 9-digit input satisfies the format-error hypothesis and
indeed raises the format error. -/
theorem c9_cpr_to_birthdate_witness :
    ("010137000".toList.length ≠ 10 ∨ "010137000".toList.all Char.isDigit = false) ∧
    cpr_to_birthdate "010137000"
      = .error (.valueError "CPR number must be exactly 10 digits (DDMMYYSSSS)") :=
  ⟨by decide, c9_cpr_to_birthdate.2.2.1 "010137000" (by decide)⟩

/-- C2: at each of the three check-then-create sites the creating action is
invoked iff the existence query returns the empty list, and the state is
untouched otherwise; the queries are keyed by the patient CPR, a text or
filename pattern, and a 30-day recency cutoff; and two consecutive runs in
which the first run's creation makes the second run's query non-empty invoke
the creating action exactly once (first run yes, second run no). -/
theorem c2_idempotent_creation :
    (∀ {σ : Type} (q : σ → DocFilters → List String) (c : σ → σ)
        (cpr name : String) (now : Int) (s : σ),
      ((finalize_edi_portal_document q c cpr name now s).2 = true ↔
        q s (finalize_edi_filters cpr name now) = []) ∧
      ((finalize_edi_portal_document q c cpr name now s).2 = false →
        (finalize_edi_portal_document q c cpr name now s).1 = s)) ∧
    (∀ {σ : Type} (q : σ → NoteFilters → List String) (c : σ → σ)
        (cpr : String) (now : Int) (s : σ),
      ((created_administrative_note q c cpr now s).2 = true ↔
        q s (administrative_note_filters cpr now) = []) ∧
      ((created_administrative_note q c cpr now s).2 = false →
        (created_administrative_note q c cpr now s).1 = s)) ∧
    (∀ {σ : Type} (q : σ → DocFilters → List String) (c : σ → σ)
        (cpr : String) (now : Int) (s : σ),
      ((check_and_create_medical_record_document q c cpr now s).2 = true ↔
        q s (medical_record_filters cpr now) = []) ∧
      ((check_and_create_medical_record_document q c cpr now s).2 = false →
        (check_and_create_medical_record_document q c cpr now s).1 = s)) ∧
    (∀ (cpr name : String) (now : Int),
      (finalize_edi_filters cpr name now).cpr = cpr ∧
      (finalize_edi_filters cpr name now).textPattern
        = "%EDI Portal - " ++ name ++ "%" ∧
      (finalize_edi_filters cpr name now).createdAfter = now - 30) ∧
    (∀ (cpr : String) (now : Int),
      (administrative_note_filters cpr now).cpr = cpr ∧
      (administrative_note_filters cpr now).beskrivelsePattern
        = "%" ++ ADM_NOTE_LOOKUP ++ "%" ∧
      (administrative_note_filters cpr now).dokumenteretAfter = now - 30) ∧
    (∀ (cpr : String) (now : Int),
      (medical_record_filters cpr now).cpr = cpr ∧
      (medical_record_filters cpr now).textPattern
        = "%Printet journal%(delvis kopi)%" ∧
      (medical_record_filters cpr now).createdAfter = now - 30) ∧
    (∀ {σ : Type} (q : σ → DocFilters → List String) (c : σ → σ)
        (cpr name : String) (now1 now2 : Int) (s : σ),
      q s (finalize_edi_filters cpr name now1) = [] →
      q (c s) (finalize_edi_filters cpr name now2) ≠ [] →
      (finalize_edi_portal_document q c cpr name now1 s).2 = true ∧
      (finalize_edi_portal_document q c cpr name now2
        (finalize_edi_portal_document q c cpr name now1 s).1).2 = false) ∧
    (∀ {σ : Type} (q : σ → NoteFilters → List String) (c : σ → σ)
        (cpr : String) (now1 now2 : Int) (s : σ),
      q s (administrative_note_filters cpr now1) = [] →
      q (c s) (administrative_note_filters cpr now2) ≠ [] →
      (created_administrative_note q c cpr now1 s).2 = true ∧
      (created_administrative_note q c cpr now2
        (created_administrative_note q c cpr now1 s).1).2 = false) ∧
    (∀ {σ : Type} (q : σ → DocFilters → List String) (c : σ → σ)
        (cpr : String) (now1 now2 : Int) (s : σ),
      q s (medical_record_filters cpr now1) = [] →
      q (c s) (medical_record_filters cpr now2) ≠ [] →
      (check_and_create_medical_record_document q c cpr now1 s).2 = true ∧
      (check_and_create_medical_record_document q c cpr now2
        (check_and_create_medical_record_document q c cpr now1 s).1).2 = false) := by
  refine ⟨?_, ?_, ?_, ?_, ?_, ?_, ?_, ?_, ?_⟩
  · intro σ q c cpr name now s
    cases hq : q s (finalize_edi_filters cpr name now) with
    | nil => simp [finalize_edi_portal_document, hq]
    | cons a l => simp [finalize_edi_portal_document, hq]
  · intro σ q c cpr now s
    cases hq : q s (administrative_note_filters cpr now) with
    | nil => simp [created_administrative_note, hq]
    | cons a l => simp [created_administrative_note, hq]
  · intro σ q c cpr now s
    cases hq : q s (medical_record_filters cpr now) with
    | nil => simp [check_and_create_medical_record_document, hq]
    | cons a l => simp [check_and_create_medical_record_document, hq]
  · intro cpr name now
    exact ⟨rfl, rfl, rfl⟩
  · intro cpr now
    exact ⟨rfl, rfl, rfl⟩
  · intro cpr now
    exact ⟨rfl, rfl, rfl⟩
  · intro σ q c cpr name now1 now2 s h1 h2
    have r1 : finalize_edi_portal_document q c cpr name now1 s = (c s, true) := by
      simp [finalize_edi_portal_document, h1]
    rw [r1]
    refine ⟨rfl, ?_⟩
    cases hq2 : q (c s) (finalize_edi_filters cpr name now2) with
    | nil => exact absurd hq2 h2
    | cons a l => simp [finalize_edi_portal_document, hq2]
  · intro σ q c cpr now1 now2 s h1 h2
    have r1 : created_administrative_note q c cpr now1 s = (c s, true) := by
      simp [created_administrative_note, h1]
    rw [r1]
    refine ⟨rfl, ?_⟩
    cases hq2 : q (c s) (administrative_note_filters cpr now2) with
    | nil => exact absurd hq2 h2
    | cons a l => simp [created_administrative_note, hq2]
  · intro σ q c cpr now1 now2 s h1 h2
    have r1 : check_and_create_medical_record_document q c cpr now1 s = (c s, true) := by
      simp [check_and_create_medical_record_document, h1]
    rw [r1]
    refine ⟨rfl, ?_⟩
    cases hq2 : q (c s) (medical_record_filters cpr now2) with
    | nil => exact absurd hq2 h2
    | cons a l => simp [check_and_create_medical_record_document, hq2]

/-- C2 witness: over a state that is the list of existing artifacts, with
the query returning the whole state, two consecutive runs of each site
create exactly once. -/
theorem c2_idempotent_creation_witness :
    ((fun (s : List String) (_ : DocFilters) => s) [] (finalize_edi_filters "0101370000" "Test Person" 100) = [] ∧
      (finalize_edi_portal_document (fun s _ => s) (fun s => "receipt" :: s)
        "0101370000" "Test Person" 100 ([] : List String)).2 = true ∧
      (finalize_edi_portal_document (fun s _ => s) (fun s => "receipt" :: s)
        "0101370000" "Test Person" 100
        (finalize_edi_portal_document (fun s _ => s) (fun s => "receipt" :: s)
          "0101370000" "Test Person" 100 ([] : List String)).1).2 = false) ∧
    ((created_administrative_note (fun (s : List String) _ => s) (fun s => "note" :: s)
        "0101370000" 100 ([] : List String)).2 = true ∧
      (created_administrative_note (fun (s : List String) _ => s) (fun s => "note" :: s)
        "0101370000" 100
        (created_administrative_note (fun (s : List String) _ => s) (fun s => "note" :: s)
          "0101370000" 100 ([] : List String)).1).2 = false) ∧
    ((check_and_create_medical_record_document (fun (s : List String) _ => s)
        (fun s => "journal" :: s) "0101370000" 100 ([] : List String)).2 = true ∧
      (check_and_create_medical_record_document (fun (s : List String) _ => s)
        (fun s => "journal" :: s) "0101370000" 100
        (check_and_create_medical_record_document (fun (s : List String) _ => s)
          (fun s => "journal" :: s) "0101370000" 100 ([] : List String)).1).2 = false) := by
  refine ⟨⟨rfl, ?_⟩, ?_, ?_⟩
  · exact c2_idempotent_creation.2.2.2.2.2.2.1
      (fun s _ => s) (fun s => "receipt" :: s) "0101370000" "Test Person" 100 100 []
      rfl (by simp)
  · exact c2_idempotent_creation.2.2.2.2.2.2.2.1
      (fun s _ => s) (fun s => "note" :: s) "0101370000" 100 100 []
      rfl (by simp)
  · exact c2_idempotent_creation.2.2.2.2.2.2.2.2
      (fun s _ => s) (fun s => "journal" :: s) "0101370000" 100 100 []
      rfl (by simp)

/-- C6: for a destination clinic with contractorId "477052", both the lookup
and the check search with the substituted contractor id "485055", the check
matches rows against the substituted phone number "86135240", and the
composed subject line takes the substituted (Hasle Torv) form, not the
original contractor id. -/
theorem c6_contractor_substitution :
    ∀ (c : ClinicData) (baseSubject patientName : String),
      c.contractorId = "477052" →
      edi_portal_lookup_values c = ("485055", "86135240") ∧
      edi_portal_lookup_search_value c = "485055" ∧
      edi_portal_check_values c = ("485055", "86135240") ∧
      edi_portal_check_search_value c = "485055" ∧
      (∀ rows : List String,
        (edi_portal_check_contractor_result c rows).2
          = rows.any (fun p => p = "86135240")) ∧
      edi_portal_handler_subject baseSubject patientName c
        = baseSubject ++ " på Tandklinikken Hasle Torv " ++ patientName ∧
      edi_portal_lookup_search_value c ≠ c.contractorId := by
  intro c baseSubject patientName h
  refine ⟨?_, ?_, ?_, ?_, ?_, ?_, ?_⟩
  · simp [edi_portal_lookup_values, h]
  · simp [edi_portal_lookup_search_value, edi_portal_lookup_values, h]
  · simp [edi_portal_check_values, h]
  · simp [edi_portal_check_search_value, edi_portal_check_values, h]
  · intro rows
    simp [edi_portal_check_contractor_result, edi_portal_check_values, h]
  · simp [edi_portal_handler_subject, h]
  · simp [edi_portal_lookup_search_value, edi_portal_lookup_values, h]

/-- C6 witness: the Hasle Torv clinic with its original phone number. -/
theorem c6_contractor_substitution_witness :
    (ClinicData.mk "477052" "11223344").contractorId = "477052" ∧
    edi_portal_lookup_search_value (ClinicData.mk "477052" "11223344") = "485055" ∧
    edi_portal_handler_subject "Udskrivningsmateriale" "Test Person"
        (ClinicData.mk "477052" "11223344")
      = "Udskrivningsmateriale" ++ " på Tandklinikken Hasle Torv " ++ "Test Person" :=
  ⟨rfl,
    (c6_contractor_substitution (ClinicData.mk "477052" "11223344")
      "Udskrivningsmateriale" "Test Person" rfl).2.1,
    (c6_contractor_substitution (ClinicData.mk "477052" "11223344")
      "Udskrivningsmateriale" "Test Person" rfl).2.2.2.2.2.1⟩

/-- C7 counterexample: when the body raises a `BusinessError` and the
"failed" dashboard update itself raises, the update's exception propagates
to `process_item`'s caller — it is not swallowed, contradicting the claim
that outcome reporting is best-effort. -/
theorem c7_counterexample :
    (process_item_run (.ok ()) (.ok ()) (.error (.businessError "missing phone"))
        (.ok ()) (.error (.runtimeError "dashboard unreachable")) (.ok ())).result
      = .error (.plain (.runtimeError "dashboard unreachable")) ∧
    (process_item_run (.ok ()) (.ok ()) (.error (.businessError "missing phone"))
        (.ok ()) (.error (.runtimeError "dashboard unreachable")) (.ok ())).updates
      = [("running", false), ("failed", true)] := ⟨rfl, rfl⟩

/-- C7 (amended): `process_item` always attempts to report the run outcome
— "success" on normal completion, "failed" with rerun=True on a
`BusinessError`, "failed" with rerun=False on any other exception — but the
reporting is not best-effort: an exception raised inside the
status-reporting call propagates to the caller (superseding the original
outcome). -/
theorem c7_outcome_reporting :
    ∀ preRes updRunning bodyRes updSuccess updFailedBus updFailedTech : Except PyErr Unit,
      (preRes = .ok () → updRunning = .ok () → bodyRes = .ok () → updSuccess = .ok () →
        process_item_run preRes updRunning bodyRes updSuccess updFailedBus updFailedTech
          = ⟨[("running", false), ("success", false)], 1, .ok ()⟩) ∧
      (∀ m, preRes = .ok () → updRunning = .ok () →
        bodyRes = .error (.businessError m) →
        (process_item_run preRes updRunning bodyRes updSuccess updFailedBus
            updFailedTech).updates = [("running", false), ("failed", true)] ∧
        (updFailedBus = .ok () →
          (process_item_run preRes updRunning bodyRes updSuccess updFailedBus
              updFailedTech).result = .error (.plain (.businessError m))) ∧
        (∀ u, updFailedBus = .error u →
          (process_item_run preRes updRunning bodyRes updSuccess updFailedBus
              updFailedTech).result = .error (.plain u))) ∧
      (∀ e, preRes = .ok () → updRunning = .ok () → bodyRes = .error e →
        isBusinessError e = false →
        (process_item_run preRes updRunning bodyRes updSuccess updFailedBus
            updFailedTech).updates = [("running", false), ("failed", false)] ∧
        (updFailedTech = .ok () →
          (process_item_run preRes updRunning bodyRes updSuccess updFailedBus
              updFailedTech).result
            = .error (.processErrorFrom "A process error occurred." e)) ∧
        (∀ u, updFailedTech = .error u →
          (process_item_run preRes updRunning bodyRes updSuccess updFailedBus
              updFailedTech).result = .error (.plain u))) := by
  intro preRes updRunning bodyRes updSuccess updFailedBus updFailedTech
  refine ⟨?_, ?_, ?_⟩
  · intro h1 h2 h3 h4
    subst h1; subst h2; subst h3; subst h4
    rfl
  · intro m h1 h2 h3
    subst h1; subst h2; subst h3
    refine ⟨?_, ?_, ?_⟩
    · cases updFailedBus <;>
        rfl
    · intro h4
      subst h4
      rfl
    · intro u h4
      subst h4
      rfl
  · intro e h1 h2 h3 hb
    subst h1; subst h2; subst h3
    refine ⟨?_, ?_, ?_⟩
    · cases updFailedTech <;>
        simp [process_item_run, process_item_try_phase, process_item_handle, hb]
    · intro h4
      subst h4
      simp [process_item_run, process_item_try_phase, process_item_handle, hb]
    · intro u h4
      subst h4
      simp [process_item_run, process_item_try_phase, process_item_handle, hb]

/-- C7 witness: the three reporting paths at concrete phase outcomes. -/
theorem c7_outcome_reporting_witness :
    process_item_run (.ok ()) (.ok ()) (.ok ()) (.ok ()) (.ok ()) (.ok ())
      = ⟨[("running", false), ("success", false)], 1, .ok ()⟩ ∧
    (process_item_run (.ok ()) (.ok ()) (.error (.businessError "mismatch"))
        (.ok ()) (.ok ()) (.ok ())).updates = [("running", false), ("failed", true)] ∧
    (process_item_run (.ok ()) (.ok ()) (.error (.runtimeError "timeout"))
        (.ok ()) (.ok ()) (.ok ())).result
      = .error (.processErrorFrom "A process error occurred." (.runtimeError "timeout")) :=
  ⟨(c7_outcome_reporting (.ok ()) (.ok ()) (.ok ()) (.ok ()) (.ok ()) (.ok ())).1
      rfl rfl rfl rfl,
    ((c7_outcome_reporting (.ok ()) (.ok ()) (.error (.businessError "mismatch"))
        (.ok ()) (.ok ()) (.ok ())).2.1 "mismatch" rfl rfl rfl).1,
    ((c7_outcome_reporting (.ok ()) (.ok ()) (.error (.runtimeError "timeout"))
        (.ok ()) (.ok ()) (.ok ())).2.2 (.runtimeError "timeout") rfl rfl rfl
      rfl).2.1 rfl⟩

/-- C8: on every exit path of `process_item` — normal return, a raised
`BusinessError`, any other exception, and even when a dashboard update in a
handler raises — the `finally` block invokes `close()` exactly once. -/
theorem c8_close_on_every_exit :
    ∀ preRes updRunning bodyRes updSuccess updFailedBus updFailedTech : Except PyErr Unit,
      (process_item_run preRes updRunning bodyRes updSuccess updFailedBus
          updFailedTech).closed = 1 := by
  intro preRes updRunning bodyRes updSuccess updFailedBus updFailedTech
  rfl

/-- C10: the call sites in `_process_images` and `_process_medical_record`
each leave the required parameter `queue_element_data` unbound; any
execution whose stages before the image fetch complete raises `TypeError`
at the image-fetch stage, before any later pipeline step runs, and the
generic handler re-raises it wrapped as a `ProcessError`. -/
theorem c10_image_stage_type_error :
    process_images_call_missing = ["queue_element_data"] ∧
    process_medical_record_call_missing = ["queue_element_data"] ∧
    (∀ (env : BodyEnv) (preRes updRunning updSuccess updFailedBus : Except PyErr Unit),
      env.get_app = .ok () → env.prepare_environment = .ok () →
      env.open_and_init_patient = .ok () →
      (runStages (process_item_body_stages env)).1
        = ["get_app", "prepare_environment", "open_and_init_patient",
            "process_images"] ∧
      (runStages (process_item_body_stages env)).2
        = .error (.typeError "missing required positional arguments: queue_element_data") ∧
      (preRes = .ok () → updRunning = .ok () →
        (process_item_full preRes updRunning env updSuccess updFailedBus
            (.ok ())).2.result
          = .error (.processErrorFrom "A process error occurred."
              (.typeError "missing required positional arguments: queue_element_data")))) := by
  refine ⟨rfl, rfl, ?_⟩
  intro env preRes updRunning updSuccess updFailedBus h1 h2 h3
  have hbody : runStages (process_item_body_stages env)
      = (["get_app", "prepare_environment", "open_and_init_patient", "process_images"],
          .error (.typeError "missing required positional arguments: queue_element_data")) := by
    simp [process_item_body_stages, runStages, h1, h2, h3, pythonCall,
      process_images_call_missing, missingRequiredArgs, get_images_from_romexis_params]
    rfl
  refine ⟨by rw [hbody], by rw [hbody], ?_⟩
  intro hp hu
  subst hp; subst hu
  simp only [process_item_full, hbody]
  rfl

/-- C10 witness: every external stage succeeding, the run still fails at the
image fetch with a wrapped `TypeError`. -/
theorem c10_image_stage_type_error_witness :
    (runStages (process_item_body_stages
        ⟨.ok (), .ok (), .ok (), .ok (), .ok (), .ok (), .ok (), .ok ()⟩)).1
      = ["get_app", "prepare_environment", "open_and_init_patient",
          "process_images"] ∧
    (process_item_full (.ok ()) (.ok ())
        ⟨.ok (), .ok (), .ok (), .ok (), .ok (), .ok (), .ok (), .ok ()⟩
        (.ok ()) (.ok ()) (.ok ())).2.result
      = .error (.processErrorFrom "A process error occurred."
          (.typeError "missing required positional arguments: queue_element_data")) := by
  have h := c10_image_stage_type_error.2.2
    ⟨.ok (), .ok (), .ok (), .ok (), .ok (), .ok (), .ok (), .ok ()⟩
    (.ok ()) (.ok ()) (.ok ()) (.ok ()) rfl rfl rfl
  exact ⟨h.1, h.2.2 rfl rfl⟩

end JournalRontgen
